import Mathlib

/-!
# Field descriptor of the thrift compiler (`compiler/cpp/src/parse/t_field.h`)

A shallow embedding of the C++ class `t_field` and proofs of its data contract.

* `t_type*`      is an address (`t_type_ptr`); the class `t_type` itself is declared elsewhere.
* `std::string`  is a Lean `String`; the class only ever copies it.
* `int32_t`      is the subtype of `Int` between `INT32_MIN` and `INT32_MAX`; the class does no
  arithmetic on it.
* member functions take the object as an explicit argument; the one non-`const` member
  function returns the updated object.
-/

namespace Thrift

/-! ## Data model -/

/-- Smallest value of a C++ `int32_t`. -/
def INT32_MIN : Int := -2147483648

/-- Largest value of a C++ `int32_t`. -/
def INT32_MAX : Int := 2147483647

/-- C++ `int32_t`: exactly the integers of the signed 32-bit range. -/
abbrev int32_t : Type := { k : Int // INT32_MIN ≤ k ∧ k ≤ INT32_MAX }

/-- C++ `t_type*`: the address of a type node that the field does not own. -/
structure t_type_ptr where
  addr : Nat
deriving DecidableEq, Repr

/-- The private data members of `class t_field` (t_field.h, lines 48-53). -/
structure t_field where
  type_ : t_type_ptr
  name_ : String
  key_ : int32_t
  xsd_optional_ : Bool
deriving DecidableEq

namespace t_field

/-- Constructor `t_field(t_type* type, std::string name)` (t_field.h, lines 14-18). -/
def t_field2 (type : t_type_ptr) (name : String) : t_field :=
  { type_ := type, name_ := name, key_ := ⟨0, by decide⟩, xsd_optional_ := false }

/-- Constructor `t_field(t_type* type, std::string name, int32_t key)`
(t_field.h, lines 20-24). -/
def t_field3 (type : t_type_ptr) (name : String) (key : int32_t) : t_field :=
  { type_ := type, name_ := name, key_ := key, xsd_optional_ := false }

/-- Member `t_type* get_type() const` (t_field.h, lines 28-30). -/
def get_type (self : t_field) : t_type_ptr :=
  self.type_

/-- Member `const std::string& get_name() const` (t_field.h, lines 32-34). -/
def get_name (self : t_field) : String :=
  self.name_

/-- Member `int32_t get_key() const` (t_field.h, lines 36-38). -/
def get_key (self : t_field) : int32_t :=
  self.key_

/-- Member `void set_xsd_optional(bool xsd_optional)` (t_field.h, lines 40-42): the only
assignment is to `xsd_optional_`. -/
def set_xsd_optional (self : t_field) (xsd_optional : Bool) : t_field :=
  { self with xsd_optional_ := xsd_optional }

/-- Member `bool get_xsd_optional() const` (t_field.h, lines 44-46). -/
def get_xsd_optional (self : t_field) : Bool :=
  self.xsd_optional_

/-- A finite sequence of `set_xsd_optional` calls on one object, first call first. -/
def set_xsd_optional_seq (self : t_field) (values : List Bool) : t_field :=
  values.foldl set_xsd_optional self

end t_field

/-! ## Calls on an object, with the object's state threaded through -/

/-- One call of a public member function of `t_field`. -/
inductive Call where
  | get_type
  | get_name
  | get_key
  | set_xsd_optional (xsd_optional : Bool)
  | get_xsd_optional
deriving DecidableEq

/-- What a call hands back to its caller. -/
inductive Ret where
  | type (t : t_type_ptr)
  | name (s : String)
  | key (k : int32_t)
  | flag (b : Bool)
  | void
deriving DecidableEq

/-- The `const` member functions. -/
def Call.is_accessor : Call → Bool
  | .set_xsd_optional _ => false
  | _ => true

/-- Performs one call on the object `self`: the value returned and the object afterwards.
The `const` members return the object as it was; `set_xsd_optional` returns nothing and
leaves the object with the new flag. -/
def invoke (self : t_field) : Call → Ret × t_field
  | .get_type => (.type self.get_type, self)
  | .get_name => (.name self.get_name, self)
  | .get_key => (.key self.get_key, self)
  | .set_xsd_optional b => (.void, self.set_xsd_optional b)
  | .get_xsd_optional => (.flag self.get_xsd_optional, self)

/-- Performs the calls in order on one object: the values returned, in order, and the
object after the last call. -/
def run (self : t_field) : List Call → List Ret × t_field
  | [] => ([], self)
  | c :: cs =>
    let r := invoke self c
    let rest := run r.2 cs
    (r.1 :: rest.1, rest.2)

/-! ## Several objects -/

/-- A store of `t_field` objects; an object is identified by its position, as in the field
sequence of a struct. -/
abbrev Store : Type := List t_field

/-- Calls `set_xsd_optional(v)` on the object at position `p`; `none` when there is no
object there. Every other position keeps its object. -/
def Store.set_xsd_optional : Store → Nat → Bool → Option Store
  | [], _, _ => none
  | f :: rest, 0, v => some (f.set_xsd_optional v :: rest)
  | f :: rest, p + 1, v => (Store.set_xsd_optional rest p v).map (fun rest1 => f :: rest1)

/-! ## Helper lemmas -/

/-- One `set_xsd_optional` call keeps the three data members it does not assign. -/
lemma set_xsd_optional_keeps (f : t_field) (b : Bool) :
    (f.set_xsd_optional b).type_ = f.type_ ∧ (f.set_xsd_optional b).name_ = f.name_ ∧
      (f.set_xsd_optional b).key_ = f.key_ :=
  ⟨rfl, rfl, rfl⟩

/-- A sequence of `set_xsd_optional` calls keeps the three data members it does not assign. -/
lemma set_xsd_optional_seq_keeps (bs : List Bool) :
    ∀ f : t_field, (f.set_xsd_optional_seq bs).type_ = f.type_ ∧
      (f.set_xsd_optional_seq bs).name_ = f.name_ ∧ (f.set_xsd_optional_seq bs).key_ = f.key_ := by
  induction bs with
  | nil => intro f; exact ⟨rfl, rfl, rfl⟩
  | cons b bs ih =>
    intro f
    have h := ih (f.set_xsd_optional b)
    simpa [t_field.set_xsd_optional_seq, t_field.set_xsd_optional] using h

/-- A `const` member function hands the object back as it received it. -/
lemma invoke_accessor_state (f : t_field) (c : Call) (hc : c.is_accessor = true) :
    (invoke f c).2 = f := by
  cases c <;> simp_all [invoke, Call.is_accessor]

/-- Reading a position of the store after a successful `set_xsd_optional` on position `p`. -/
lemma Store.set_xsd_optional_get (s : Store) :
    ∀ (p : Nat) (v : Bool) (s1 : Store), Store.set_xsd_optional s p v = some s1 →
      ∀ q : Nat, s1[q]? = if q = p then (s[q]?).map (fun f => f.set_xsd_optional v) else s[q]? := by
  induction s with
  | nil => intro p v s1 h; simp [Store.set_xsd_optional] at h
  | cons f rest ih =>
    intro p v s1 h q
    cases p with
    | zero =>
      simp only [Store.set_xsd_optional, Option.some.injEq] at h
      subst h
      cases q <;> simp
    | succ p =>
      simp only [Store.set_xsd_optional, Option.map_eq_some'] at h
      obtain ⟨rest1, hrest, rfl⟩ := h
      cases q with
      | zero => simp
      | succ q => simpa using ih p v rest1 hrest q

/-- The call `set_xsd_optional` succeeds on every position that holds an object. -/
lemma Store.set_xsd_optional_isSome (s : Store) :
    ∀ (p : Nat) (v : Bool), p < s.length → ∃ s1, Store.set_xsd_optional s p v = some s1 := by
  induction s with
  | nil => intro p v h; simp at h
  | cons f rest ih =>
    intro p v h
    cases p with
    | zero => exact ⟨_, rfl⟩
    | succ p =>
      obtain ⟨rest1, hrest⟩ := ih p v (by simpa using h)
      exact ⟨f :: rest1, by simp [Store.set_xsd_optional, hrest]⟩

/-- A run of `const` member functions only: the object afterwards is the object before, and
every call returns what it returns on the object before. -/
lemma run_accessors (cs : List Call) :
    ∀ f : t_field, (∀ c ∈ cs, c.is_accessor = true) →
      (run f cs).2 = f ∧ (run f cs).1 = cs.map (fun c => (invoke f c).1) := by
  induction cs with
  | nil => intro f _; exact ⟨rfl, rfl⟩
  | cons c cs ih =>
    intro f h
    have hc : (invoke f c).2 = f := invoke_accessor_state f c (h c (List.mem_cons_self c cs))
    have hcs := ih f (fun d hd => h d (List.mem_cons_of_mem c hd))
    simp only [run, hc, List.map_cons]
    exact ⟨hcs.1, by rw [hcs.2]⟩

/-- A sequence of `set_xsd_optional` calls either leaves the object as it was (no call was
made) or has the effect of one call. -/
lemma set_xsd_optional_seq_cases (bs : List Bool) :
    ∀ f : t_field, f.set_xsd_optional_seq bs = f ∨
      ∃ b : Bool, f.set_xsd_optional_seq bs = f.set_xsd_optional b := by
  induction bs with
  | nil => intro f; exact Or.inl rfl
  | cons b bs ih =>
    intro f
    have hstep : f.set_xsd_optional_seq (b :: bs) = (f.set_xsd_optional b).set_xsd_optional_seq bs :=
      rfl
    rcases ih (f.set_xsd_optional b) with h | ⟨b1, h⟩
    · exact Or.inr ⟨b, by rw [hstep, h]⟩
    · exact Or.inr ⟨b1, by rw [hstep, h]; rfl⟩

/-! ## Construction -/

/-- C1: for every type reference `t` and name `n`, the two-argument constructor yields a
descriptor whose `get_key()` is 0 and whose `get_xsd_optional()` is false. -/
theorem t_field2_key_zero_flag_false (t : t_type_ptr) (n : String) :
    ((t_field.t_field2 t n).get_key).val = 0 ∧
      (t_field.t_field2 t n).get_xsd_optional = false :=
  ⟨rfl, rfl⟩

/-- C2: for every type reference `t`, name `n` and integer `k` of the signed 32-bit range,
the three-argument constructor yields a descriptor whose `get_key()` is `k` itself: the key
is stored as given, neither checked, clamped nor truncated. -/
theorem t_field3_key_verbatim (t : t_type_ptr) (n : String) (k : Int)
    (hk : INT32_MIN ≤ k ∧ k ≤ INT32_MAX) :
    (t_field.t_field3 t n ⟨k, hk⟩).get_key = ⟨k, hk⟩ ∧
      ((t_field.t_field3 t n ⟨k, hk⟩).get_key).val = k :=
  ⟨rfl, rfl⟩

/-- Instances of C2 at the two ends of the 32-bit range, at a negative key and at 0. -/
theorem t_field3_key_verbatim_witness :
    ((t_field.t_field3 ⟨4096⟩ "tag" ⟨-2147483648, by decide⟩).get_key).val = -2147483648 ∧
      ((t_field.t_field3 ⟨4096⟩ "tag" ⟨2147483647, by decide⟩).get_key).val = 2147483647 ∧
      ((t_field.t_field3 ⟨4096⟩ "tag" ⟨-1, by decide⟩).get_key).val = -1 ∧
      ((t_field.t_field3 ⟨4096⟩ "tag" ⟨0, by decide⟩).get_key).val = 0 :=
  ⟨(t_field3_key_verbatim ⟨4096⟩ "tag" (-2147483648) (by decide)).2,
    (t_field3_key_verbatim ⟨4096⟩ "tag" 2147483647 (by decide)).2,
    (t_field3_key_verbatim ⟨4096⟩ "tag" (-1) (by decide)).2,
    (t_field3_key_verbatim ⟨4096⟩ "tag" 0 (by decide)).2⟩

/-- C3: for both constructors and all arguments, `get_type()` of the constructed descriptor
is the type reference supplied and `get_name()` is the name supplied, unmodified. -/
theorem constructors_type_and_name (t : t_type_ptr) (n : String) (k : int32_t) :
    (t_field.t_field2 t n).get_type = t ∧ (t_field.t_field2 t n).get_name = n ∧
      (t_field.t_field3 t n k).get_type = t ∧ (t_field.t_field3 t n k).get_name = n :=
  ⟨rfl, rfl, rfl, rfl⟩

/-- C7: for every type reference `t`, name `n` and 32-bit key `k`, the three-argument
constructor yields a descriptor whose `get_xsd_optional()` is false, the same flag as the
two-argument constructor gives. -/
theorem t_field3_flag_false (t : t_type_ptr) (n : String) (k : int32_t) :
    (t_field.t_field3 t n k).get_xsd_optional = false ∧
      (t_field.t_field3 t n k).get_xsd_optional = (t_field.t_field2 t n).get_xsd_optional :=
  ⟨rfl, rfl⟩

/-- C8: construction is total and validates nothing: for every type reference `t`, every
string `n` and every 32-bit key `k` both constructors return a descriptor, holding the
arguments as given; with the empty string as name they return a descriptor whose
`get_name()` is the empty string. -/
theorem constructors_total (t : t_type_ptr) (n : String) (k : int32_t) :
    (∃ f : t_field, t_field.t_field2 t n = f ∧ f.get_type = t ∧ f.get_name = n) ∧
      (∃ f : t_field, t_field.t_field3 t n k = f ∧ f.get_type = t ∧ f.get_name = n ∧
        f.get_key = k) ∧
      (t_field.t_field2 t "").get_name = "" ∧ (t_field.t_field3 t "" k).get_name = "" :=
  ⟨⟨_, rfl, rfl, rfl⟩, ⟨_, rfl, rfl, rfl, rfl⟩, rfl, rfl⟩

/-! ## The flag -/

/-- C4: for every descriptor `f`, also one reached by earlier `set_xsd_optional` calls, and
every boolean `b`, after `set_xsd_optional(b)` the call `get_xsd_optional()` returns `b`;
setting true and reading gives true, setting false afterwards and reading gives false. -/
theorem get_after_set_xsd_optional (f : t_field) (b : Bool) (earlier : List Bool) :
    (f.set_xsd_optional b).get_xsd_optional = b ∧
      ((f.set_xsd_optional_seq earlier).set_xsd_optional b).get_xsd_optional = b ∧
      (f.set_xsd_optional true).get_xsd_optional = true ∧
      ((f.set_xsd_optional true).set_xsd_optional false).get_xsd_optional = false :=
  ⟨rfl, rfl, rfl, rfl⟩

/-- C5: for every descriptor `f` and boolean `b`, `set_xsd_optional(b)` leaves `get_type()`,
`get_name()` and `get_key()` unchanged; hence after any finite sequence of
`set_xsd_optional` calls on a freshly constructed descriptor, type, name and key are still
the values given to the constructor. -/
theorem set_xsd_optional_frame (f : t_field) (b : Bool) (t : t_type_ptr) (n : String)
    (k : int32_t) (calls : List Bool) :
    ((f.set_xsd_optional b).get_type = f.get_type ∧
        (f.set_xsd_optional b).get_name = f.get_name ∧
        (f.set_xsd_optional b).get_key = f.get_key) ∧
      (((t_field.t_field3 t n k).set_xsd_optional_seq calls).get_type = t ∧
        ((t_field.t_field3 t n k).set_xsd_optional_seq calls).get_name = n ∧
        ((t_field.t_field3 t n k).set_xsd_optional_seq calls).get_key = k) ∧
      (((t_field.t_field2 t n).set_xsd_optional_seq calls).get_type = t ∧
        ((t_field.t_field2 t n).set_xsd_optional_seq calls).get_name = n ∧
        (((t_field.t_field2 t n).set_xsd_optional_seq calls).get_key).val = 0) := by
  refine ⟨set_xsd_optional_keeps f b, ?_, ?_⟩
  · exact set_xsd_optional_seq_keeps calls (t_field.t_field3 t n k)
  · obtain ⟨h1, h2, h3⟩ := set_xsd_optional_seq_keeps calls (t_field.t_field2 t n)
    exact ⟨h1, h2, by simp only [t_field.get_key, h3]; rfl⟩

/-! ## Independence of objects -/

/-- C6: for every two descriptors `a` and `b` held at distinct positions of a store, also
two built from equal constructor arguments, calling `set_xsd_optional(v)` on `a` succeeds,
gives `a` the flag `v`, and leaves `b`, hence its type, name, key and flag, unchanged. -/
theorem set_xsd_optional_other_object (s : Store) (i j : Nat) (a b : t_field) (v : Bool)
    (hij : i ≠ j) (ha : s[i]? = some a) (hb : s[j]? = some b) :
    ∃ s1 : Store, Store.set_xsd_optional s i v = some s1 ∧
      s1[i]? = some (a.set_xsd_optional v) ∧ s1[j]? = some b ∧
      (s1[j]?).map t_field.get_type = some b.get_type ∧
      (s1[j]?).map t_field.get_name = some b.get_name ∧
      (s1[j]?).map t_field.get_key = some b.get_key ∧
      (s1[j]?).map t_field.get_xsd_optional = some b.get_xsd_optional := by
  have hi : i < s.length := by
    by_contra hlt
    rw [List.getElem?_eq_none (Nat.le_of_not_lt hlt)] at ha
    exact Option.noConfusion ha
  obtain ⟨s1, hs1⟩ := Store.set_xsd_optional_isSome s i v hi
  have hget := Store.set_xsd_optional_get s i v s1 hs1
  have hi1 : s1[i]? = some (a.set_xsd_optional v) := by
    rw [hget i, if_pos rfl, ha]; rfl
  have hj1 : s1[j]? = some b := by
    rw [hget j, if_neg (fun h => hij h.symm), hb]
  refine ⟨s1, hs1, hi1, hj1, ?_, ?_, ?_, ?_⟩ <;> rw [hj1] <;> rfl

/-- The scenario of C6: the store holds `t_field(T, "id")` at position 0 and
`t_field(T, "tag", 5)` at position 1; `set_xsd_optional(true)` on the second leaves the
first as constructed. -/
theorem set_xsd_optional_other_object_witness :
    ∃ s1 : Store,
      Store.set_xsd_optional
        [t_field.t_field2 ⟨4096⟩ "id", t_field.t_field3 ⟨4096⟩ "tag" ⟨5, by decide⟩] 1 true
        = some s1 ∧
      s1[1]? = some ((t_field.t_field3 ⟨4096⟩ "tag" ⟨5, by decide⟩).set_xsd_optional true) ∧
      s1[0]? = some (t_field.t_field2 ⟨4096⟩ "id") ∧
      (s1[0]?).map t_field.get_type = some (t_field.t_field2 ⟨4096⟩ "id").get_type ∧
      (s1[0]?).map t_field.get_name = some (t_field.t_field2 ⟨4096⟩ "id").get_name ∧
      (s1[0]?).map t_field.get_key = some ⟨0, by decide⟩ ∧
      (s1[0]?).map t_field.get_xsd_optional = some false :=
  set_xsd_optional_other_object
    [t_field.t_field2 ⟨4096⟩ "id", t_field.t_field3 ⟨4096⟩ "tag" ⟨5, by decide⟩] 1 0
    (t_field.t_field3 ⟨4096⟩ "tag" ⟨5, by decide⟩) (t_field.t_field2 ⟨4096⟩ "id") true
    (by decide) rfl rfl

/-! ## Accessors -/

/-- C9: the accessors `get_type()`, `get_name()`, `get_key()` and `get_xsd_optional()` are
read-only: for every descriptor `f`, after any number of accessor calls in any order the
state of `f` is unchanged, and each call returns what it returns on `f` at the start, so
repeated calls of one accessor return the same result. -/
theorem accessors_read_only (f : t_field) (cs : List Call)
    (hcs : ∀ c ∈ cs, c.is_accessor = true) :
    (run f cs).2 = f ∧ (run f cs).1 = cs.map (fun c => (invoke f c).1) ∧
      ∀ c ∈ cs, (invoke f c).2 = f :=
  ⟨(run_accessors cs f hcs).1, (run_accessors cs f hcs).2,
    fun c hc => invoke_accessor_state f c (hcs c hc)⟩

/-- An instance of C9: six accessor calls, three of them repeated, on `t_field(T, "tag", 5)`
after `set_xsd_optional(true)`. -/
theorem accessors_read_only_witness :
    (run ((t_field.t_field3 ⟨4096⟩ "tag" ⟨5, by decide⟩).set_xsd_optional true)
        [.get_key, .get_name, .get_key, .get_type, .get_xsd_optional, .get_name,
          .get_xsd_optional]).2
      = (t_field.t_field3 ⟨4096⟩ "tag" ⟨5, by decide⟩).set_xsd_optional true ∧
    (run ((t_field.t_field3 ⟨4096⟩ "tag" ⟨5, by decide⟩).set_xsd_optional true)
        [.get_key, .get_name, .get_key, .get_type, .get_xsd_optional, .get_name,
          .get_xsd_optional]).1
      = [.key ⟨5, by decide⟩, .name "tag", .key ⟨5, by decide⟩, .type ⟨4096⟩, .flag true,
          .name "tag", .flag true] :=
  ⟨(accessors_read_only _ _ (by decide)).1, (accessors_read_only _ _ (by decide)).2.1⟩

/-! ## The two constructors compared -/

/-- C11: the two-argument constructor cannot be told from the three-argument constructor
called with key 0: for every type reference `t` and name `n` the two descriptors are equal,
they agree on type, name, key and flag, and every sequence of member-function calls returns
the same values on both and leaves both in the same state. -/
theorem t_field2_eq_t_field3_zero (t : t_type_ptr) (n : String) (cs : List Call) :
    t_field.t_field2 t n = t_field.t_field3 t n ⟨0, by decide⟩ ∧
      ((t_field.t_field2 t n).get_type = (t_field.t_field3 t n ⟨0, by decide⟩).get_type ∧
        (t_field.t_field2 t n).get_name = (t_field.t_field3 t n ⟨0, by decide⟩).get_name ∧
        (t_field.t_field2 t n).get_key = (t_field.t_field3 t n ⟨0, by decide⟩).get_key ∧
        (t_field.t_field2 t n).get_xsd_optional
          = (t_field.t_field3 t n ⟨0, by decide⟩).get_xsd_optional) ∧
      run (t_field.t_field2 t n) cs = run (t_field.t_field3 t n ⟨0, by decide⟩) cs :=
  ⟨rfl, ⟨rfl, rfl, rfl, rfl⟩, rfl⟩

/-! ## Algebra of the mutator -/

/-- C12: `set_xsd_optional` overwrites: for every descriptor `f` and booleans `a`, `b`,
`set_xsd_optional(a)` followed by `set_xsd_optional(b)` leaves the same state as
`set_xsd_optional(b)` alone; in particular calling `set_xsd_optional(b)` twice leaves the
same state as calling it once. -/
theorem set_xsd_optional_last_write_wins (f : t_field) (a b : Bool) :
    (f.set_xsd_optional a).set_xsd_optional b = f.set_xsd_optional b ∧
      (f.set_xsd_optional b).set_xsd_optional b = f.set_xsd_optional b ∧
      (run f [.set_xsd_optional a, .set_xsd_optional b]).2 = (run f [.set_xsd_optional b]).2 :=
  ⟨rfl, rfl, rfl⟩

/-- C13: writing the flag back changes nothing: for every descriptor `f`,
`set_xsd_optional(f.get_xsd_optional())` leaves the whole state of `f` (type, name, key and
flag) as it was before the call. -/
theorem set_xsd_optional_write_back (f : t_field) :
    f.set_xsd_optional f.get_xsd_optional = f ∧
      (invoke f (.set_xsd_optional f.get_xsd_optional)).2 = f := by
  cases f
  exact ⟨rfl, rfl⟩

/-! ## Reachable states -/

/-- C14: a descriptor built from fixed arguments has exactly two reachable states: for every
`t`, `n`, `k`, the descriptor after any finite sequence of `set_xsd_optional` calls on
`t_field(t, n, k)` is either `t_field(t, n, k)` or `t_field(t, n, k)` after
`set_xsd_optional(true)`; both are reached (by no call and by the single call with true)
and they differ. -/
theorem reachable_states (t : t_type_ptr) (n : String) (k : int32_t) (calls : List Bool) :
    ((t_field.t_field3 t n k).set_xsd_optional_seq calls = t_field.t_field3 t n k ∨
        (t_field.t_field3 t n k).set_xsd_optional_seq calls
          = (t_field.t_field3 t n k).set_xsd_optional true) ∧
      (t_field.t_field3 t n k).set_xsd_optional_seq [] = t_field.t_field3 t n k ∧
      (t_field.t_field3 t n k).set_xsd_optional_seq [true]
        = (t_field.t_field3 t n k).set_xsd_optional true ∧
      t_field.t_field3 t n k ≠ (t_field.t_field3 t n k).set_xsd_optional true := by
  refine ⟨?_, rfl, rfl, ?_⟩
  · rcases set_xsd_optional_seq_cases calls (t_field.t_field3 t n k) with h | ⟨b, h⟩
    · exact Or.inl h
    · cases b with
      | false => exact Or.inl (by rw [h]; rfl)
      | true => exact Or.inr h
  · intro h
    have hflag := congrArg t_field.get_xsd_optional h
    exact Bool.noConfusion hflag

end Thrift
